import Mathlib

/-!
Shallow embedding of the modal-client core: the polyester `Session`
registry (src/polyester/session.py), the `MapInvocation` streaming
protocol and `Function.__call__` (src/polyester/function.py), and the
deferred-constructor `UserFactory` (src/modal/_factory.py).

Machine-level Python details (attribute slots, opaque remote ids,
serialized payloads) are modelled with `Option`/`Nat`; fallible paths
return `Except` or carry an explicit error component.  Code of this
repository that is not under src/ (object.py, grpc_utils.py, the modal
session) is modelled from the spec, and each such definition says so in
its doc comment.
-/

namespace Polyester

/-- Errors in the embedding.  The spec's §7 taxonomy names these
categories; the Python code raises `AssertionError` for contract
violations, `asyncio.TimeoutError` for the drain timeout and a plain
`Exception` carrying the remote text for remote execution failures. -/
inductive PError where
  | contractViolation : PError
  | typeError : PError
  | remoteExecution (exc : String) (tb : String) : PError
  | drainTimeout : PError
  deriving DecidableEq, Repr

/-- An `Object` (src/polyester/object.py base class, fields as used by
src/polyester/session.py lines 21-34): `args` is the opaque local
configuration, the identity fields `session`, `tag`, `client`,
`object_id`, `created` start unset.  Sessions and clients are opaque
handles, remote object ids are opaque naturals. -/
structure Obj where
  args : Nat
  session : Option Nat := none
  tag : Option String := none
  client : Option Nat := none
  object_id : Option Nat := none
  created : Bool := false
  deriving DecidableEq, Repr

/-- The remote service state seen through `<Kind>GetOrCreate`:
the per-session tag table, a fresh-id counter, the number of remote
objects actually created, and the log of GetOrCreate RPCs issued
(each entry is the request's optional tag). -/
structure ServerState where
  tagTable : List (String × Nat) := []
  nextId : Nat := 0
  createdCount : Nat := 0
  rpcLog : List (Option String) := []
  deriving DecidableEq, Repr

/-- Modelled from the spec: `Object._create_or_get`
(src/polyester/object.py is not under src/) issues one
`<Kind>GetOrCreate(session_id, tag?, definition) → object_id` RPC
(spec §6): with a tag present it returns the id already bound to that
tag or creates a new remote object and binds it; "a missing/empty tag
means always create new". -/
def getOrCreateRPC (st : ServerState) (tag : Option String) : Nat × ServerState :=
  let st := { st with rpcLog := st.rpcLog ++ [tag] }
  match tag with
  | some t =>
    match st.tagTable.lookup t with
    | some oid => (oid, st)
    | none =>
        (st.nextId,
         { st with tagTable := (t, st.nextId) :: st.tagTable,
                   nextId := st.nextId + 1,
                   createdCount := st.createdCount + 1 })
  | none =>
      (st.nextId,
       { st with nextId := st.nextId + 1, createdCount := st.createdCount + 1 })

/-- Embedding of `Session.create_or_get` (src/polyester/session.py lines 21-34).
`sess`/`client` are the session's own handle and its bound client.
Mutation of the argument object is made explicit: the result is
`(returned object, the argument object after the call, server state)`.
With `return_copy` the code builds `cls.__new__(cls)` carrying only
`args` and operates on that copy, leaving the original untouched;
otherwise it mutates the argument in place.  Either way it binds
`session`, `tag`, `client`, awaits `_create_or_get` for the object id
and sets `created`. -/
def Session.create_or_get (sess client : Nat) (st : ServerState) (obj : Obj)
    (tag : Option String) (return_copy : Bool) : Obj × Obj × ServerState :=
  let target : Obj := if return_copy then { args := obj.args } else obj
  let (oid, st') := getOrCreateRPC st tag
  let joined : Obj :=
    { target with session := some sess, tag := tag, client := some client,
                  object_id := some oid, created := true }
  (joined, if return_copy then obj else joined, st')

end Polyester

namespace Polyester

/-- Two successive `create_or_get` calls with the same tag, from a fresh
server state, on two objects: the scenario of the tag-idempotence claim. -/
def twoCalls (t : String) (o1 o2 : Obj) : Obj × Obj × ServerState :=
  let (r1, _, st1) := Session.create_or_get 0 0 {} o1 (some t) false
  let (r2, _, st2) := Session.create_or_get 0 0 st1 o2 (some t) false
  (r1, r2, st2)

end Polyester

namespace Polyester

/-- C1 counterexample: `Session.create_or_get` consults no client-side
table — calling it twice with tag "t" from a fresh state issues the
remote GetOrCreate RPC for "t" twice, refuting "the remote creation
call for t is issued at most once". -/
theorem create_or_get_second_call_repeats_rpc :
    ¬ ((twoCalls "t" { args := 0 } { args := 1 }).2.2.rpcLog.count (some "t") ≤ 1) := by
  decide

/-- C1 (amended): two `create_or_get` calls with the same fresh tag `t`
return the same remote object id, and only one remote object is created
for `t` — but the dedup is server-side: the client issues the
GetOrCreate RPC once per call (twice in total), the second RPC
returning the existing id instead of creating a second object. -/
theorem create_or_get_tag_idempotent (sess client : Nat) (st : ServerState)
    (t : String) (o1 o2 : Obj) (h : st.tagTable.lookup t = none) :
    (Session.create_or_get sess client
        (Session.create_or_get sess client st o1 (some t) false).2.2
        o2 (some t) false).1.object_id
      = (Session.create_or_get sess client st o1 (some t) false).1.object_id ∧
    (Session.create_or_get sess client
        (Session.create_or_get sess client st o1 (some t) false).2.2
        o2 (some t) false).2.2.createdCount = st.createdCount + 1 ∧
    (Session.create_or_get sess client
        (Session.create_or_get sess client st o1 (some t) false).2.2
        o2 (some t) false).2.2.rpcLog = st.rpcLog ++ [some t, some t] := by
  simp [Session.create_or_get, getOrCreateRPC, h, List.lookup]

/-- Witness for C1 (amended) at a concrete fresh state. -/
theorem create_or_get_tag_idempotent_witness :
    (ServerState.tagTable {}).lookup "t" = none ∧
    (Session.create_or_get 0 0
        (Session.create_or_get 0 0 {} { args := 0 } (some "t") false).2.2
        { args := 1 } (some "t") false).1.object_id
      = (Session.create_or_get 0 0 {} { args := 0 } (some "t") false).1.object_id :=
  ⟨rfl, (create_or_get_tag_idempotent 0 0 {} "t" { args := 0 } { args := 1 } rfl).1⟩

/-- Events observable during `Session.run` (src/polyester/session.py
lines 50-88): the SessionCreate request, the binding of `session_id`,
one create-or-get per discovered member, the start of the background
log loop, the caller's scoped block, the SessionStop request and the
final bounded-timeout log drain. -/
inductive RunEvent where
  | sessionCreateReq
  | setSessionId
  | createOrGet (tag : String)
  | logLoopStarted
  | blockRun
  | sessionStopReq
  | finalDrain
  deriving DecidableEq, Repr

/-- Outcome of one execution of `Session.run`: the ordered trace of
events it performed and whether it re-raised an exception. -/
structure RunResult where
  events : List RunEvent
  raised : Bool
  deriving DecidableEq, Repr

/-- The member-creation loop of `Session.run` (lines 73-74): one
`create_or_get(obj, tag)` per discovered member, in order. -/
def createMembers (sess client : Nat) (st : ServerState) :
    List (String × Obj) → List RunEvent × ServerState
  | [] => ([], st)
  | (tag, obj) :: rest =>
      let (_, _, st') := Session.create_or_get sess client st obj (some tag) false
      let (evs, st'') := createMembers sess client st' rest
      (RunEvent.createOrGet tag :: evs, st'')

/-- Embedding of `Session.run` (src/polyester/session.py lines 50-88) as a trace
function.  `objects` is the tag-to-object map discovered from the
session's attributes and registered functions (lines 58-63, pure local
computation); `sessionCreateOk` is whether the SessionCreate RPC
succeeds; `bodyRaises` is whether the caller's scoped block raises.

Control flow follows the source: SessionCreate is awaited and
`session_id` bound (lines 67-69) before the member loop; the log loop
task starts and the block runs inside `TaskContext` (lines 77-79);
the code has no try/finally around the `yield`, so when the block
raises, the exception thrown into the generator propagates and the
SessionStop request and final drain (lines 81-88) are skipped.
`TaskContext.__aexit__` (async_utils is not under src/) is modelled
from the spec: it cancels the background log loop at scoped-block exit
and does not suppress the exception. -/
def Session.run (sess client : Nat) (objects : List (String × Obj))
    (sessionCreateOk bodyRaises : Bool) (st : ServerState) :
    RunResult × ServerState :=
  if !sessionCreateOk then
    ({ events := [.sessionCreateReq], raised := true }, st)
  else
    let (createEvents, st') := createMembers sess client st objects
    let pre := RunEvent.sessionCreateReq :: RunEvent.setSessionId ::
      createEvents ++ [RunEvent.logLoopStarted, RunEvent.blockRun]
    if bodyRaises then
      ({ events := pre, raised := true }, st')
    else
      ({ events := pre ++ [RunEvent.sessionStopReq, RunEvent.finalDrain],
         raised := false }, st')

/-- The events of the member-creation loop are exactly one
`createOrGet` per member, in order. -/
theorem createMembers_events (sess client : Nat) (st : ServerState)
    (objects : List (String × Obj)) :
    (createMembers sess client st objects).1
      = objects.map (fun p => RunEvent.createOrGet p.1) := by
  induction objects generalizing st with
  | nil => rfl
  | cons p rest ih => simp [createMembers, ih]

/-- C2 counterexample: when the scoped block raises, `Session.run`
re-raises without sending the SessionStop request and without the
final log drain — there is no try/finally around the `yield`. -/
theorem run_exceptional_exit_skips_teardown :
    (Session.run 0 0 [("x", { args := 0 })] true true {}).1.raised = true ∧
    (Session.run 0 0 [("x", { args := 0 })] true true {}).1.events.count
        RunEvent.sessionStopReq = 0 ∧
    (Session.run 0 0 [("x", { args := 0 })] true true {}).1.events.count
        RunEvent.finalDrain = 0 := by
  decide

/-- C2 (amended): the session stop request and the final bounded-timeout
log drain are performed only on normal completion of the scoped block;
when the block raises, `run` re-raises and both teardown steps are
skipped. -/
theorem run_teardown_only_on_normal_exit (sess client : Nat)
    (objects : List (String × Obj)) (st : ServerState) :
    (Session.run sess client objects true false st).1.raised = false ∧
    (Session.run sess client objects true false st).1.events
      = RunEvent.sessionCreateReq :: RunEvent.setSessionId ::
        objects.map (fun p => RunEvent.createOrGet p.1)
        ++ [RunEvent.logLoopStarted, RunEvent.blockRun,
            RunEvent.sessionStopReq, RunEvent.finalDrain] ∧
    (Session.run sess client objects true true st).1.raised = true ∧
    (Session.run sess client objects true true st).1.events.count
        RunEvent.sessionStopReq = 0 ∧
    (Session.run sess client objects true true st).1.events.count
        RunEvent.finalDrain = 0 := by
  refine ⟨by simp [Session.run], by simp [Session.run, createMembers_events],
    by simp [Session.run], ?_, ?_⟩ <;>
  · rw [List.count_eq_zero]
    simp [Session.run, createMembers_events]

/-- C6: in every execution of `Session.run`, `session_id` is bound
exactly once, immediately after the SessionCreate response and before
any create-or-get request; if the SessionCreate RPC fails, `run`
aborts with only that request issued — no object is created without a
bound session id. -/
theorem run_session_id_set_once_before_creation (sess client : Nat)
    (objects : List (String × Obj)) (bodyRaises : Bool) (st : ServerState) :
    (Session.run sess client objects false bodyRaises st).1.events
        = [RunEvent.sessionCreateReq] ∧
    (Session.run sess client objects false bodyRaises st).1.raised = true ∧
    ∃ l, (Session.run sess client objects true bodyRaises st).1.events
        = RunEvent.sessionCreateReq :: RunEvent.setSessionId :: l
      ∧ l.count RunEvent.setSessionId = 0 := by
  refine ⟨by simp [Session.run], by simp [Session.run], ?_⟩
  cases bodyRaises with
  | false =>
      refine ⟨objects.map (fun p => RunEvent.createOrGet p.1)
        ++ [RunEvent.logLoopStarted, RunEvent.blockRun,
            RunEvent.sessionStopReq, RunEvent.finalDrain], ?_, ?_⟩
      · simp [Session.run, createMembers_events]
      · rw [List.count_eq_zero]; simp
  | true =>
      refine ⟨objects.map (fun p => RunEvent.createOrGet p.1)
        ++ [RunEvent.logLoopStarted, RunEvent.blockRun], ?_, ?_⟩
      · simp [Session.run, createMembers_events]
      · rw [List.count_eq_zero]; simp

/-- C8: with `return_copy = True`, `create_or_get` operates on a shallow
duplicate carrying the same `args`: the returned copy has `session`,
`tag`, `client`, `object_id` and `created` bound, while the original
object — in particular its identity fields `object_id`, `created`,
`session`, `tag` — is returned unchanged, reusable as a template. -/
theorem create_or_get_return_copy_frame (sess client : Nat) (st : ServerState)
    (obj : Obj) (tag : Option String) :
    (Session.create_or_get sess client st obj tag true).1.args = obj.args ∧
    (Session.create_or_get sess client st obj tag true).1.session = some sess ∧
    (Session.create_or_get sess client st obj tag true).1.tag = tag ∧
    (Session.create_or_get sess client st obj tag true).1.client = some client ∧
    (Session.create_or_get sess client st obj tag true).1.object_id
      = some (getOrCreateRPC st tag).1 ∧
    (Session.create_or_get sess client st obj tag true).1.created = true ∧
    (Session.create_or_get sess client st obj tag true).2.1 = obj := by
  simp [Session.create_or_get]

end Polyester

namespace Polyester

/-- Embedding of `GenericResult.Status` from the proto: proto enums default to 0
(`unspecified`); the consumer in function.py line 116 treats every
status other than `success` as a failure. -/
inductive Status where
  | unspecified | success | failure
  deriving DecidableEq, Repr

/-- A received output buffer item after unpacking into `GenericResult`
(function.py lines 108-114): a status, an opaque serialized payload,
and the remote exception and traceback texts. -/
structure GenericResult where
  status : Status
  data : Nat
  exception : String
  traceback : String
  deriving DecidableEq, Repr

/-- Modelled from the spec: `BLOCKING_REQUEST_TIMEOUT`
(src/polyester/grpc_utils.py is not under src/) is the fixed
blocking-request timeout constant; its concrete value is immaterial to
the theorems below — only that it is one fixed bound. -/
def BLOCKING_REQUEST_TIMEOUT : Nat := 60

/-- The consumer loop of `MapInvocation.__aiter__` (function.py lines
108-118): processes received items in arrival order; a SUCCESS item's
payload is deserialized and yielded; any other status raises a remote
execution failure carrying the item's exception and traceback texts,
keeping the outputs already yielded and consuming nothing further.
Result: (outputs yielded in order, the error raised if any). -/
def consumeOutputs (deserialize : Nat → α) :
    List GenericResult → List α × Option PError
  | [] => ([], none)
  | r :: rest =>
    if r.status = Status.success then
      (deserialize r.data :: (consumeOutputs deserialize rest).1,
       (consumeOutputs deserialize rest).2)
    else
      ([], some (PError.remoteExecution r.exception r.traceback))

/-- The producer-drain step of `MapInvocation.__aiter__` (function.py
line 120): `asyncio.wait_for(pump_task, timeout=BLOCKING_REQUEST_TIMEOUT)`.
`producerRemaining` is the time the pump task still needs at the drain
point; exceeding the bound raises the timeout error instead of waiting
indefinitely. -/
def drainProducer (producerRemaining : Nat) : Option PError :=
  if producerRemaining ≤ BLOCKING_REQUEST_TIMEOUT then none
  else some PError.drainTimeout

/-- Embedding of `MapInvocation.__aiter__` driven to exhaustion (the `map` path):
consume every received output, then — only when consumption finished
without a failure — run the bounded producer drain. -/
def MapInvocation.aiterRun (deserialize : Nat → α)
    (received : List GenericResult) (producerRemaining : Nat) :
    List α × Option PError :=
  match (consumeOutputs deserialize received).2 with
  | some e => ((consumeOutputs deserialize received).1, some e)
  | none => ((consumeOutputs deserialize received).1,
             drainProducer producerRemaining)

theorem consumeOutputs_fst (deserialize : Nat → α)
    (received : List GenericResult) :
    (consumeOutputs deserialize received).1
      = (received.takeWhile (fun r => r.status == Status.success)).map
          (fun r => deserialize r.data) := by
  induction received with
  | nil => rfl
  | cons r rest ih =>
      by_cases h : r.status = Status.success <;>
        simp [consumeOutputs, h, List.takeWhile_cons, ih]

theorem consumeOutputs_snd (deserialize : Nat → α)
    (received : List GenericResult) :
    (consumeOutputs deserialize received).2
      = (match received.dropWhile (fun r => r.status == Status.success) with
         | [] => none
         | r :: _ => some (PError.remoteExecution r.exception r.traceback)) := by
  induction received with
  | nil => rfl
  | cons r rest ih =>
      by_cases h : r.status = Status.success <;>
        simp [consumeOutputs, h, List.dropWhile_cons, ih]

/-- C4: the consumer yields the deserialized payloads of exactly the
items in the longest all-SUCCESS prefix of the received sequence, in
order; if every item has SUCCESS status it raises nothing, and
otherwise it raises a remote-execution failure carrying the first
non-SUCCESS item's exception and traceback texts, aborting all further
consumption while keeping the previously yielded outputs. -/
theorem consumer_yields_iff_success (deserialize : Nat → α)
    (received : List GenericResult) :
    (consumeOutputs deserialize received).1
      = (received.takeWhile (fun r => r.status == Status.success)).map
          (fun r => deserialize r.data) ∧
    (match received.dropWhile (fun r => r.status == Status.success) with
     | [] => (consumeOutputs deserialize received).2 = none
     | r :: _ => (consumeOutputs deserialize received).2
          = some (PError.remoteExecution r.exception r.traceback)) := by
  refine ⟨consumeOutputs_fst deserialize received, ?_⟩
  rw [consumeOutputs_snd]
  cases received.dropWhile (fun r => r.status == Status.success) <;> simp

/-- C5: after the consumer's output sequence is exhausted (every
received item carried SUCCESS), the engine waits for the producer task
bounded by the fixed `BLOCKING_REQUEST_TIMEOUT`: a producer needing
longer than the bound makes the invocation fail with the drain-timeout
error instead of hanging, and a producer finishing within the bound
lets it complete with no error. -/
theorem drain_bounded_by_fixed_timeout (deserialize : Nat → α)
    (received : List GenericResult) (producerRemaining : Nat)
    (hall : ∀ r ∈ received, r.status = Status.success) :
    (BLOCKING_REQUEST_TIMEOUT < producerRemaining →
      (MapInvocation.aiterRun deserialize received producerRemaining).2
        = some PError.drainTimeout) ∧
    (producerRemaining ≤ BLOCKING_REQUEST_TIMEOUT →
      (MapInvocation.aiterRun deserialize received producerRemaining).2
        = none) := by
  have hdrop : received.dropWhile (fun r => r.status == Status.success) = [] := by
    rw [List.dropWhile_eq_nil_iff]
    intro r hr
    simp [hall r hr]
  have hsnd : (consumeOutputs deserialize received).2 = none := by
    rw [consumeOutputs_snd, hdrop]
  constructor
  · intro hlt
    have hn : ¬ producerRemaining ≤ BLOCKING_REQUEST_TIMEOUT := by omega
    simp [MapInvocation.aiterRun, hsnd, drainProducer, hn]
  · intro hle
    simp [MapInvocation.aiterRun, hsnd, drainProducer, hle]

/-- Witness for C5 at a concrete input: empty output stream, producer
needing one tick more than the bound fails with the drain timeout. -/
theorem drain_bounded_by_fixed_timeout_witness :
    (MapInvocation.aiterRun (fun n => n) []
        (BLOCKING_REQUEST_TIMEOUT + 1)).2 = some PError.drainTimeout :=
  (drain_bounded_by_fixed_timeout (fun n => n) []
      (BLOCKING_REQUEST_TIMEOUT + 1) (by simp)).1 (by omega)

/-- The observable steps of the `MapInvocation.__aiter__` async
generator, in the order its body would execute them: starting the pump
task (line 102), yielding a deserialized output (line 118), raising
(lines 117 and 120's timeout), and awaiting the producer drain
(line 120). -/
inductive GenEvent (α : Type) where
  | pumpStarted
  | yielded (v : α)
  | raised (e : PError)
  | drainAwaited
  deriving DecidableEq, Repr

/-- The consumer loop of `__aiter__` as events: one `yielded` per
SUCCESS item in arrival order, a single `raised` at the first
non-SUCCESS item. -/
def consumerEvents (deserialize : Nat → α) :
    List GenericResult → List (GenEvent α)
  | [] => []
  | r :: rest =>
    if r.status = Status.success then
      GenEvent.yielded (deserialize r.data) :: consumerEvents deserialize rest
    else
      [GenEvent.raised (PError.remoteExecution r.exception r.traceback)]

/-- The full event list of `MapInvocation.__aiter__` were it driven to
exhaustion: pump start, then the consumer loop, and — only when the
loop finished without raising — the producer drain, which raises
`drainTimeout` when the producer exceeds the bound. -/
def aiterEvents (deserialize : Nat → α) (received : List GenericResult)
    (producerRemaining : Nat) : List (GenEvent α) :=
  GenEvent.pumpStarted :: consumerEvents deserialize received ++
    (match (consumeOutputs deserialize received).2 with
     | some _ => []
     | none =>
        GenEvent.drainAwaited ::
          (match drainProducer producerRemaining with
           | none => []
           | some e => [GenEvent.raised e]))

/-- How `async for output in invocation: return output` drives the
generator: events execute until the first `yielded`, whose value is
returned — the generator is then abandoned, so no later event runs; a
`raised` event propagates as the call's error; if the event list ends
with no yield, the loop body never runs and the call returns `none`.
Result: (the events actually executed, the call's outcome). -/
def driveToFirstYield :
    List (GenEvent α) → List (GenEvent α) × Except PError (Option α)
  | [] => ([], Except.ok none)
  | GenEvent.yielded v :: _ =>
      ([GenEvent.yielded v], Except.ok (some v))
  | GenEvent.raised e :: _ =>
      ([GenEvent.raised e], Except.error e)
  | GenEvent.pumpStarted :: rest =>
      ((GenEvent.pumpStarted :: (driveToFirstYield rest).1),
       (driveToFirstYield rest).2)
  | GenEvent.drainAwaited :: rest =>
      ((GenEvent.drainAwaited :: (driveToFirstYield rest).1),
       (driveToFirstYield rest).2)

/-- A `MapInvocation` (function.py lines 66-82): the target function
id, the ordered input sequence (each an opaque serialized args tuple),
shared kwargs, and the buffer pair allocated by FunctionMap. -/
structure MapInvocation where
  function_id : Nat
  inputs : List Nat
  kwargs : Nat
  input_buffer_id : Nat
  output_buffer_id : Nat
  deriving DecidableEq, Repr

/-- Embedding of `MapInvocation.create` (function.py lines 76-82): allocates the
input/output buffer pair for the function and packages the
invocation. -/
def MapInvocation.create (function_id : Nat) (inputs : List Nat)
    (kwargs in_buf out_buf : Nat) : MapInvocation :=
  { function_id := function_id, inputs := inputs, kwargs := kwargs,
    input_buffer_id := in_buf, output_buffer_id := out_buf }

/-- Embedding of `Function.__call__` (function.py lines 166-170): builds an
invocation over the single input `[args]` and returns from inside the
`async for` at the first output.  `received` and `producerRemaining`
describe the remote side's behavior.  Result: (the invocation built,
the generator events actually executed, the call's outcome). -/
def Function.call (deserialize : Nat → α)
    (function_id args kwargs in_buf out_buf : Nat)
    (received : List GenericResult) (producerRemaining : Nat) :
    MapInvocation × List (GenEvent α) × Except PError (Option α) :=
  let invocation := MapInvocation.create function_id [args] kwargs in_buf out_buf
  (invocation,
   driveToFirstYield (aiterEvents deserialize received producerRemaining))

/-- C3 counterexample: a single-input call whose one output arrives
successfully returns that output, but the executed events are only the
pump start and the yield — the producer-drain step (`asyncio.wait_for`
on the pump task, line 120) is never executed, because `return` inside
the `async for` abandons the generator at its first yield. -/
theorem call_does_not_drive_drain :
    (Function.call (fun n => n) 1 5 0 10 11
        [{ status := Status.success, data := 42, exception := "", traceback := "" }]
        0).2.2 = Except.ok (some 42) ∧
    (Function.call (fun n => n) 1 5 0 10 11
        [{ status := Status.success, data := 42, exception := "", traceback := "" }]
        0).2.1.count GenEvent.drainAwaited = 0 :=
  ⟨rfl, rfl⟩

/-- C3 (amended): `__call__` builds a one-input invocation and returns
the first yielded result, but it does not fully drive the protocol:
whenever the first received item is a SUCCESS output, the executed
events are exactly the pump start and that single yield, so the
producer-drain step is skipped (the drain runs only in executions
whose output stream yields nothing before ending). -/
theorem call_returns_first_output_skips_drain (deserialize : Nat → α)
    (function_id args kwargs in_buf out_buf : Nat)
    (r : GenericResult) (rest : List GenericResult) (producerRemaining : Nat)
    (h : r.status = Status.success) :
    (Function.call deserialize function_id args kwargs in_buf out_buf
        (r :: rest) producerRemaining).1.inputs = [args] ∧
    (Function.call deserialize function_id args kwargs in_buf out_buf
        (r :: rest) producerRemaining).2.2
      = Except.ok (some (deserialize r.data)) ∧
    (Function.call deserialize function_id args kwargs in_buf out_buf
        (r :: rest) producerRemaining).2.1
      = [GenEvent.pumpStarted, GenEvent.yielded (deserialize r.data)] := by
  refine ⟨rfl, ?_, ?_⟩ <;>
    simp [Function.call, MapInvocation.create, aiterEvents, consumerEvents,
      h, driveToFirstYield]

/-- Witness for C3 (amended) at a concrete single-output stream. -/
theorem call_returns_first_output_skips_drain_witness :
    ({ status := Status.success, data := 42, exception := "",
       traceback := "" } : GenericResult).status = Status.success ∧
    (Function.call (fun n => n) 1 5 0 10 11
        [{ status := Status.success, data := 42, exception := "", traceback := "" }]
        7).2.1
      = [GenEvent.pumpStarted, GenEvent.yielded 42] :=
  ⟨rfl, (call_returns_first_output_skips_drain (fun n => n) 1 5 0 10 11
      { status := Status.success, data := 42, exception := "", traceback := "" }
      [] 7 rfl).2.2⟩

end Polyester

namespace Modal

open Polyester (PError)

/-- A value produced by the user's wrapped procedure, after awaiting a
coroutine result (_factory.py lines 39-45): either an instance of the
wrapped object class `cls` — carrying its opaque configuration — or
some other Python value. -/
inductive PyVal where
  | objVal (cfg : Nat)
  | otherVal (descr : String)
  deriving DecidableEq, Repr

/-- Modelled from the spec: `FunctionInfo.get_tag`
(src/modal/_function_utils.py is not under src/) derives a
deterministic tag from the wrapped procedure's fully-qualified
identity plus a canonical encoding of the bound arguments (§3, Tag).
Bound args-and-kwargs are an opaque pair of payloads. -/
def getTag (fnName : String) : Option (Nat × Nat) → String
  | none => fnName
  | some (a, k) => fnName ++ "(" ++ toString a ++ "," ++ toString k ++ ")"

/-- A deferred-constructor factory (_factory.py `UserFactory`):
the wrapped procedure's identity and behavior, the optionally bound
`(args, kwargs)` pair, the derived tag, and the factory's own Object
identity slot (set up by `cls._init_static`). -/
structure UserFactory where
  fnName : String
  fnBehavior : Option (Nat × Nat) → PyVal
  args_and_kwargs : Option (Nat × Nat)
  tag : String
  object_id : Option Nat := none

/-- Embedding of `UserFactory.__init__` (_factory.py lines 24-33): stores the
wrapped procedure and the optional bound arguments and initializes the
factory's Object identity with the tag derived from both (tag
derivation modelled from the spec, see `getTag`). -/
def mkUserFactory (fnName : String) (fnBehavior : Option (Nat × Nat) → PyVal)
    (args_and_kwargs : Option (Nat × Nat)) : UserFactory :=
  { fnName := fnName, fnBehavior := fnBehavior,
    args_and_kwargs := args_and_kwargs,
    tag := getTag fnName args_and_kwargs, object_id := none }

/-- Embedding of `UserFactory.__call__` (_factory.py lines 54-57): asserts no
arguments are bound yet, then constructs a fresh factory with the
given arguments bound.  Mutation of the receiver is made explicit: the
result is (the call's outcome, the receiver after the call).  The
failed assert is the spec taxonomy's `ContractViolation` (the Python
code raises `AssertionError`). -/
def UserFactory.call (f : UserFactory) (args : Nat × Nat) :
    Except PError UserFactory × UserFactory :=
  match f.args_and_kwargs with
  | some _ => (Except.error PError.contractViolation, f)
  | none => (Except.ok (mkUserFactory f.fnName f.fnBehavior (some args)), f)

/-- Modelled from the spec: the modal session's `create_object`
(src/modal/_session.py is not under src/) issues the creation request
for the produced object's definition — an anonymous, tag-less
GetOrCreate per §6, since produced objects "have neither sessions nor
tags" — returning the fresh remote object id. -/
def createObject (st : Polyester.ServerState) (_cfg : Nat) :
    Nat × Polyester.ServerState :=
  Polyester.getOrCreateRPC st none

/-- Embedding of `UserFactory.load` (_factory.py lines 35-52): asserts the process
is not inside a container session, calls the wrapped procedure with
the bound arguments if any (awaiting a coroutine result is transparent
here), type-checks that the produced value is an instance of the
wrapped class — raising `TypeError` otherwise, before any remote call
— and creates the produced object remotely, returning its new object
id.  The state component carries the remote service state (and its RPC
log) across the call. -/
def UserFactory.load (f : UserFactory) (containerSession : Bool)
    (st : Polyester.ServerState) :
    Except PError Nat × Polyester.ServerState :=
  if containerSession then (Except.error PError.contractViolation, st)
  else
    match f.fnBehavior f.args_and_kwargs with
    | PyVal.otherVal _ => (Except.error PError.typeError, st)
    | PyVal.objVal cfg =>
        (Except.ok (createObject st cfg).1, (createObject st cfg).2)

/-- Modelled from the spec: the session's factory-join path
(src/modal/_session.py is not under src/) runs the factory's `load`
and adopts — "steals" — the returned remote object id as the id of the
factory's own Object identity (§3 Factory invariant; §8 Id stealing;
the polyester counterpart is `obj.object_id = await obj._create_or_get()`
at src/polyester/session.py line 32). -/
def joinFactory (f : UserFactory) (containerSession : Bool)
    (st : Polyester.ServerState) :
    Except PError (UserFactory × Polyester.ServerState) :=
  match f.load containerSession st with
  | (Except.ok oid, st') => Except.ok ({ f with object_id := some oid }, st')
  | (Except.error e, _) => Except.error e

/-- C9: calling a deferred factory with no arguments bound returns a
new factory with those arguments bound, the same wrapped procedure and
the re-derived tag, leaving the receiver unchanged; calling a factory
that already has arguments bound fails fast with the contract
violation and never rebinds. -/
theorem factory_call_currying (f : UserFactory) (args : Nat × Nat) :
    (f.call args).2 = f ∧
    (f.args_and_kwargs = none →
      (f.call args).1
        = Except.ok (mkUserFactory f.fnName f.fnBehavior (some args))) ∧
    (∀ p, f.args_and_kwargs = some p →
      (f.call args).1 = Except.error PError.contractViolation) := by
  refine ⟨?_, ?_, ?_⟩
  · cases h : f.args_and_kwargs <;> simp [UserFactory.call, h]
  · intro h
    simp [UserFactory.call, h]
  · intro p h
    simp [UserFactory.call, h]

/-- Witness for C9 at concrete factories: an unbound factory call
succeeds with the arguments bound; an already-bound factory call
fails with the contract violation. -/
theorem factory_call_currying_witness :
    ((mkUserFactory "f" (fun _ => PyVal.objVal 0) none).call (3, 4)).1
      = Except.ok (mkUserFactory "f" (fun _ => PyVal.objVal 0) (some (3, 4))) ∧
    ((mkUserFactory "f" (fun _ => PyVal.objVal 0) (some (1, 2))).call (3, 4)).1
      = Except.error PError.contractViolation :=
  ⟨(factory_call_currying
      (mkUserFactory "f" (fun _ => PyVal.objVal 0) none) (3, 4)).2.1 rfl,
   (factory_call_currying
      (mkUserFactory "f" (fun _ => PyVal.objVal 0) (some (1, 2))) (3, 4)).2.2
      (1, 2) rfl⟩

/-- C7: when a deferred factory's wrapped procedure produces an
instance of the wrapped class, joining the factory binds the factory's
own object id to exactly the id obtained by creating the produced
object — the factory "steals" the produced object's id. -/
theorem factory_steals_produced_object_id (f : UserFactory)
    (st : Polyester.ServerState) (cfg : Nat)
    (h : f.fnBehavior f.args_and_kwargs = PyVal.objVal cfg) :
    joinFactory f false st
      = Except.ok ({ f with object_id := some (createObject st cfg).1 },
                   (createObject st cfg).2) := by
  simp [joinFactory, UserFactory.load, h]

/-- Witness for C7 at a concrete factory and fresh server state. -/
theorem factory_steals_produced_object_id_witness :
    joinFactory (mkUserFactory "f" (fun _ => PyVal.objVal 9) none) false {}
      = Except.ok
          ({ mkUserFactory "f" (fun _ => PyVal.objVal 9) none with
             object_id := some (createObject {} 9).1 },
           (createObject {} 9).2) :=
  factory_steals_produced_object_id
    (mkUserFactory "f" (fun _ => PyVal.objVal 9) none) {} 9 rfl

/-- C10: when the wrapped procedure (after awaiting a coroutine
result) produces a value that is not an instance of the wrapped class,
`load` fails with `TypeError` and the remote service state — in
particular its RPC log — is untouched: no create request is issued for
that value. -/
theorem load_type_error_issues_no_create (f : UserFactory)
    (st : Polyester.ServerState) (d : String)
    (h : f.fnBehavior f.args_and_kwargs = PyVal.otherVal d) :
    (f.load false st).1 = Except.error PError.typeError ∧
    (f.load false st).2 = st := by
  simp [UserFactory.load, h]

/-- Witness for C10 at a concrete factory whose procedure returns a
non-instance value. -/
theorem load_type_error_issues_no_create_witness :
    ((mkUserFactory "f" (fun _ => PyVal.otherVal "a string") none).load
        false {}).1 = Except.error PError.typeError :=
  (load_type_error_issues_no_create
    (mkUserFactory "f" (fun _ => PyVal.otherVal "a string") none)
    {} "a string" rfl).1

end Modal
